import Mathlib

/-!
Shallow embedding of `src/UniquePtr.h` (namespace `Rainbow3D`): the scalar
`UniquePtr<T, Deleter>` and the array partial specialization
`UniquePtr<T[], Deleter>`.

Runtime model. A handle is a record of its two data members `_ptr` and `_d`
(src/UniquePtr.h:144-145 and 299-300): the stored pointer is `Option P`
(`none` models the null pointer) and the stored releaser is a value of an
arbitrary type `D`.  Every operation that may invoke the releaser returns,
next to its result, the trace of releaser invocations it performed, in
order; each invocation is recorded as an `Event` carrying the argument the
releaser was called with and the value of the handle's stored pointer field
at the moment of the call (so that install-before-release ordering is an
observable property of a trace).

Compile-time model. The `requires` clauses of the constructors are embedded
as boolean predicates over a small descriptor type `CppType` of the C++
types involved, with the standard type traits (`std::is_pointer_v`,
`std::is_default_constructible_v`, `std::is_convertible_v` on array-pointer
types) modelled as functions on the descriptors.
-/

set_option autoImplicit false

namespace Rainbow3D

/-- One invocation of the releaser: `arg` is the pointer passed to `_d`,
`stored` is the value of the handle's `_ptr` field at the moment of the
call. -/
structure Event (P : Type) where
  arg : P
  stored : Option P
  deriving DecidableEq, Repr

/-- The data members of `UniquePtr` (src/UniquePtr.h:144-145, identically
299-300 in the array specialization): `pointer _ptr; deleter_type _d;`.
`none` models the null pointer. -/
structure Handle (P D : Type) where
  ptr : Option P
  d : D
  deriving DecidableEq, Repr

variable {P D : Type}

/-- `Release` (src/UniquePtr.h:100-104; the array variant's `Release` at
246-250 is textually identical): `auto temp = _ptr; _ptr = nullptr; return
temp;`.  Returns (handle after, returned pointer) and the (empty) trace of
releaser invocations. -/
def Release (h : Handle P D) : (Handle P D × Option P) × List (Event P) :=
  ((⟨none, h.d⟩, h.ptr), [])

/-- Scalar `Reset` (src/UniquePtr.h:106-111):
`pointer _Old = std::exchange(_ptr, _Ptr); if (_Old) { _d(_Old); }`.
The exchange installs the new pointer first, so at the moment `_d(_Old)`
runs the stored pointer already holds the new value `p`. -/
def Reset (h : Handle P D) (p : Option P) : Handle P D × List (Event P) :=
  match h.ptr with
  | some o => (⟨p, h.d⟩, [⟨o, p⟩])
  | none => (⟨p, h.d⟩, [])

/-- Array `Reset(U p)` (src/UniquePtr.h:255-262):
`if (_ptr) { _d(_ptr); } _ptr = p;`.  The releaser runs while `_ptr` still
holds the old pointer; only afterwards is `p` installed. -/
def ResetArr (h : Handle P D) (p : Option P) : Handle P D × List (Event P) :=
  match h.ptr with
  | some o => (⟨p, h.d⟩, [⟨o, some o⟩])
  | none => (⟨p, h.d⟩, [])

/-- Array `Reset(std::nullptr_t p = nullptr)` (src/UniquePtr.h:264-269):
same body as the `U` overload with `p` necessarily null. -/
def ResetArrNull (h : Handle P D) : Handle P D × List (Event P) :=
  match h.ptr with
  | some o => (⟨none, h.d⟩, [⟨o, some o⟩])
  | none => (⟨none, h.d⟩, [])

/-- The destructor (src/UniquePtr.h:69-73; the array variant's at 210-214 is
textually identical): `if (_ptr) { _d(_ptr); }`.  At the moment of the call
`_ptr` still holds the stored pointer. -/
def dtor (h : Handle P D) : List (Event P) :=
  match h.ptr with
  | some o => [⟨o, some o⟩]
  | none => []

/-- Move constructor (src/UniquePtr.h:58-60):
`UniquePtr(UniquePtr&& r) : _ptr(r.Release()), _d(std::forward<deleter_type>(r._d))`.
Returns ((constructed handle, source after), trace). -/
def moveCtor (r : Handle P D) : (Handle P D × Handle P D) × List (Event P) :=
  let rel := Release r
  ((⟨rel.1.2, r.d⟩, rel.1.1), rel.2)

/-- The body of move assignment for the case `this != std::addressof(r)`
(src/UniquePtr.h:81-82): `Reset(r.Release()); _d = std::forward<deleter_type>(r._d);`.
Takes the destination and the source; returns ((destination after, source
after), trace). -/
def moveAssign (dst src : Handle P D) : (Handle P D × Handle P D) × List (Event P) :=
  let rel := Release src
  let rst := Reset dst rel.1.2
  ((⟨rst.1.ptr, src.d⟩, rel.1.1), rel.2 ++ rst.2)

/-- Move assignment `operator=(UniquePtr&& r)` (src/UniquePtr.h:77-85), on a
store of handles addressed by `Fin n` so that the identity check
`this != std::addressof(r)` is the index comparison `i = j`:
when the addresses coincide the body is skipped entirely. -/
def moveAssignAt {n : Nat} (st : Fin n → Handle P D) (i j : Fin n) :
    (Fin n → Handle P D) × List (Event P) :=
  if i = j then (st, [])
  else
    let ma := moveAssign (st i) (st j)
    (fun k => if k = i then ma.1.1 else if k = j then ma.1.2 else st k, ma.2)

/-- `Swap` (src/UniquePtr.h:113-117; the array variant's at 271-275 is
textually identical), on the same addressed store:
`UniquePtr temp = std::move(other); other = std::move(*this); *this = std::move(temp);`
followed by the destruction of `temp` at scope exit.  `i` is `*this`, `j`
is `other`; `temp` is a fresh local, never aliased with the store, so the
last assignment's identity check always passes and its body `moveAssign`
runs. -/
def SwapAt {n : Nat} (st : Fin n → Handle P D) (i j : Fin n) :
    (Fin n → Handle P D) × List (Event P) :=
  let mc := moveCtor (st j)
  let temp := mc.1.1
  let st1 : Fin n → Handle P D := fun k => if k = j then mc.1.2 else st k
  let ma := moveAssignAt st1 j i
  let st2 := ma.1
  let fin := moveAssign (st2 i) temp
  let st3 : Fin n → Handle P D := fun k => if k = i then fin.1.1 else st2 k
  (st3, mc.2 ++ ma.2 ++ fin.2 ++ dtor fin.1.2)

/-- Descriptors of the C++ types the `requires` clauses mention: opaque
object types (`base id isConst`, the flag recording top-level
const-qualification), pointer types, function types (unary, as all
releasers here are), and `std::nullptr_t`. -/
inductive CppType where
  | base : Nat → Bool → CppType
  | ptr : CppType → CppType
  | func : CppType → CppType → CppType
  | nullptrT : CppType
  deriving DecidableEq, Repr

/-- `std::is_pointer_v`: true exactly on pointer types (`std::nullptr_t` is
not a pointer type). -/
def is_pointer : CppType → Bool
  | .ptr _ => true
  | _ => false

/-- `std::is_default_constructible_v` on the descriptors: object types,
pointers (value-initialized to null) and `std::nullptr_t` are
default-constructible; function types are not. -/
def is_default_constructible : CppType → Bool
  | .base _ _ => true
  | .ptr _ => true
  | .nullptrT => true
  | .func _ _ => false

/-- `std::is_convertible_v<V(*)[], element_type(*)[]>`: the array-to-array
pointer conversion is a qualification conversion only — it holds when the
element types are identical or differ only in the target adding top-level
const. -/
def arr_conv (v e : CppType) : Bool :=
  v = e ||
    match v, e with
    | .base i false, .base j true => i = j
    | _, _ => false

/-- The conversion rule the array variant's template pointer parameter `U`
is checked against, minus the `std::nullptr_t` escape: the last disjunct of
the `requires` clauses at src/UniquePtr.h:166, 170, 174, 181, 188 and 256,
`std::is_same_v<pointer, element_type*> && std::is_pointer_v<U> &&
std::is_convertible_v<std::remove_pointer_t<U>(*)[], element_type(*)[]>`. -/
def array_U_conv_rule (u ptrT elemT : CppType) : Bool :=
  ptrT = CppType.ptr elemT &&
    match u with
    | .ptr v => arr_conv v elemT
    | _ => false

/-- The full constraint on `U` shared verbatim by every pointer-accepting
constructor of the array variant and by its `Reset(U)`
(src/UniquePtr.h:166, 170, 174, 181, 188, 256):
`std::is_same_v<U, pointer> || std::is_same_v<U, std::nullptr_t> || (...)`. -/
def array_U_ok (u ptrT elemT : CppType) : Bool :=
  u = ptrT || u = CppType.nullptrT || array_U_conv_rule u ptrT elemT

/-- `requires` clause of the scalar default constructor
(src/UniquePtr.h:29-31): `!std::is_pointer_v<deleter_type> &&
std::is_default_constructible_v<deleter_type>`. -/
def scalar_default_ctor_ok (dt : CppType) : Bool :=
  !is_pointer dt && is_default_constructible dt

/-- `requires` clause of the scalar `std::nullptr_t` constructor
(src/UniquePtr.h:33-35), identical to the default constructor's. -/
def scalar_nullptr_ctor_ok (dt : CppType) : Bool :=
  !is_pointer dt && is_default_constructible dt

/-- `requires` clause of the scalar single-pointer constructor
(src/UniquePtr.h:38-40), identical to the default constructor's. -/
def scalar_ptr_ctor_ok (dt : CppType) : Bool :=
  !is_pointer dt && is_default_constructible dt

/-- `requires` clause of the array default constructor
(src/UniquePtr.h:157-159), identical to the scalar one's. -/
def array_default_ctor_ok (dt : CppType) : Bool :=
  !is_pointer dt && is_default_constructible dt

/-- `requires` clause of the array `std::nullptr_t` constructor
(src/UniquePtr.h:161-163). -/
def array_nullptr_ctor_ok (dt : CppType) : Bool :=
  !is_pointer dt && is_default_constructible dt

/-- `requires` clause of the array single-argument constructor `UniquePtr(U p)`
(src/UniquePtr.h:165-167): the deleter conditions of the scalar
single-pointer constructor conjoined with the shared `U` constraint. -/
def array_ptr_ctor_ok (dt u ptrT elemT : CppType) : Bool :=
  !is_pointer dt && is_default_constructible dt && array_U_ok u ptrT elemT

/-- Body of every pointer-accepting constructor, scalar or array
(src/UniquePtr.h:40, 44, 48, 52, 167, 171, 175, 182): `_ptr(p), _d(d)` — it
stores its arguments and invokes nothing.  A `std::nullptr_t` argument
stores the null pointer. -/
def ctorFrom (p : Option P) (d : D) : Handle P D :=
  ⟨p, d⟩

/-- Modelled from the spec: the array variant's `operator[]`
(src/UniquePtr.h:293-295).  The source body reads `return Get[i];`,
subscripting the member-function name `Get` itself, which is ill-formed
C++ and has no denotation; the spec (section 9, Open questions) records
that the intended body subscripts the held buffer, `Get()[i]`, the element
at address `Get() + i`.  Memory is a map from addresses to elements and a
handle's pointer is an address into it; an empty handle has no element to
return. -/
def opIndex {T : Type} (mem : Nat → T) (h : Handle Nat D) (i : Nat) : Option T :=
  h.ptr.map fun a => mem (a + i)

/-- Two-handle store used to instantiate the move-assignment theorems:
handle 0 holds pointer 1, handle 1 holds pointer 2. -/
def stc : Fin 2 → Handle Nat Unit :=
  fun k => if k = 0 then ⟨some 1, ()⟩ else ⟨some 2, ()⟩

/-- Two-handle store used to instantiate the `Swap` theorem: handle 0 holds
pointer 7, handle 1 holds pointer 8. -/
def stSwap : Fin 2 → Handle Nat Unit :=
  fun k => if k = 0 then ⟨some 7, ()⟩ else ⟨some 8, ()⟩

/-- C1: the claim says both array `Reset` overloads install the new pointer
into `_ptr` before invoking the releaser on the old pointer, so the releaser
observes the post-Reset state.  The code does the opposite: on a handle
storing pointer 1, `Reset(2)` and `Reset(nullptr)` both invoke the releaser
while `_ptr` still holds 1 (the event's `stored` field is `some 1`, not the
new value), whereas the scalar `Reset` — whose behaviour the array overload's
own comment promises to match — has already installed the new value 2 at the
moment of the call. -/
theorem ResetArr_releases_before_install :
    (ResetArr (⟨some 1, ()⟩ : Handle Nat Unit) (some 2)).2 = [⟨1, some 1⟩] ∧
    (ResetArrNull (⟨some 1, ()⟩ : Handle Nat Unit)).2 = [⟨1, some 1⟩] ∧
    (Reset (⟨some 1, ()⟩ : Handle Nat Unit) (some 2)).2 = [⟨1, some 2⟩] ∧
    (⟨1, some 1⟩ : Event Nat).stored ≠ some 2 := by
  refine ⟨rfl, rfl, rfl, ?_⟩
  decide

/-- C2: the array variant's indexing operator, as the spec intends it
(`Get()[i]`), applied to a handle holding address `a`, returns the element
at address `a + i` of the held buffer — the element at `Get() + i`.  (The
source body `return Get[i];` is ill-formed and cannot itself be embedded;
`opIndex` is modelled from the spec.) -/
theorem opIndex_spec {T D : Type} (mem : Nat → T) (a i : Nat) (d : D) :
    opIndex mem (ctorFrom (some a) d) i = some (mem (a + i)) :=
  rfl

/-- C4: move-assigning a handle to itself is a no-op — the store (hence the
stored pointer and the stored releaser of every handle) is unchanged and
the releaser-invocation trace is empty; the self case is the `i = j` branch
of `moveAssignAt`, the embedded `this != std::addressof(r)` identity
check. -/
theorem moveAssign_self_noop {P D : Type} {n : Nat}
    (st : Fin n → Handle P D) (i : Fin n) :
    moveAssignAt st i i = (st, []) := by
  simp [moveAssignAt]

/-- C6: `Release` returns the pointer `Get` returned before the call,
afterwards `Get` returns null, the stored releaser is unchanged, and the
call invokes the releaser zero times. -/
theorem Release_spec {P D : Type} (h : Handle P D) :
    (Release h).1.2 = h.ptr ∧ (Release h).1.1.ptr = none ∧
    (Release h).1.1.d = h.d ∧ (Release h).2 = [] :=
  ⟨rfl, rfl, rfl, rfl⟩

/-- C7: destruction invokes the releaser exactly once when the stored
pointer is non-null and zero times when it is null, and every invocation's
argument is the stored pointer. -/
theorem dtor_spec {P D : Type} (h : Handle P D) :
    (dtor h).length = (if h.ptr.isSome then 1 else 0) ∧
    (dtor h).map Event.arg = h.ptr.toList := by
  obtain ⟨p, d⟩ := h
  cases p <;> simp [dtor]

/-- C8: for every deleter type that is a plain function-pointer type, the
`requires` clauses of the default constructor, the `nullptr` constructor and
the single-pointer constructor — in both the scalar and the array variant,
and for every candidate `U` in the array case — evaluate to false, so these
constructors are unavailable; the rejection is due to the
`!std::is_pointer_v` conjunct alone, since a function-pointer type is
default-constructible. -/
theorem fnptr_deleter_ctors_disabled (a r : CppType) :
    scalar_default_ctor_ok (.ptr (.func a r)) = false ∧
    scalar_nullptr_ctor_ok (.ptr (.func a r)) = false ∧
    scalar_ptr_ctor_ok (.ptr (.func a r)) = false ∧
    array_default_ctor_ok (.ptr (.func a r)) = false ∧
    array_nullptr_ctor_ok (.ptr (.func a r)) = false ∧
    (∀ u ptrT elemT, array_ptr_ctor_ok (.ptr (.func a r)) u ptrT elemT = false) ∧
    is_default_constructible (.ptr (.func a r)) = true :=
  ⟨rfl, rfl, rfl, rfl, rfl, fun _ _ _ => rfl, rfl⟩

/-- C9: the `U` constraint shared by every constrained pointer-accepting
constructor of the array variant is satisfied by `std::nullptr_t` through
its dedicated `is_same_v<U, nullptr_t>` disjunct, while the array-pointer
conversion disjunct alone does not cover `nullptr_t` (it requires
`is_pointer_v<U>`); the single-argument constructor is then available for
`U = nullptr_t` whenever its deleter conditions hold, and constructing from
a null argument yields a handle whose `Get` returns null. -/
theorem array_ctor_accepts_nullptr {D : Type} (ptrT elemT : CppType)
    (k : Nat) (d : D) :
    array_U_ok CppType.nullptrT ptrT elemT = true ∧
    array_U_conv_rule CppType.nullptrT ptrT elemT = false ∧
    array_ptr_ctor_ok (.base k false) CppType.nullptrT ptrT elemT = true ∧
    (ctorFrom none d : Handle Nat D).ptr = none := by
  refine ⟨?_, ?_, ?_, rfl⟩
  · simp [array_U_ok]
  · simp [array_U_conv_rule]
  · simp [array_ptr_ctor_ok, array_U_ok, is_pointer, is_default_constructible]

/-- C10: scalar `Reset(p)` with `p` the very pointer the handle already
stores performs no self-reset detection: the releaser is invoked exactly
once, on `p`, and afterwards `Get` still returns `p` — the handle holds a
pointer whose resource has just been released. -/
theorem Reset_self_spec {P D : Type} (h : Handle P D) (p : P)
    (hp : h.ptr = some p) :
    (Reset h (some p)).1.ptr = some p ∧
    (Reset h (some p)).2 = [⟨p, some p⟩] := by
  obtain ⟨q, d⟩ := h
  cases hp
  exact ⟨rfl, rfl⟩

/-- Witness for C10 at the concrete handle storing pointer 4. -/
theorem Reset_self_spec_witness :
    (⟨some 4, ()⟩ : Handle Nat Unit).ptr = some 4 ∧
    ((Reset (⟨some 4, ()⟩ : Handle Nat Unit) (some 4)).1.ptr = some 4 ∧
      (Reset (⟨some 4, ()⟩ : Handle Nat Unit) (some 4)).2 = [⟨4, some 4⟩]) :=
  ⟨rfl, Reset_self_spec ⟨some 4, ()⟩ 4 rfl⟩

/-- C3, counterexample: the claim says a move assignment between distinct
handles never invokes the releaser during the call.  On the store where
handle 0 holds pointer 1 and handle 1 holds pointer 2, `st0 = move(st1)`
produces a non-empty invocation trace: `Reset(r.Release())` releases the
destination's old pointer 1. -/
theorem moveAssign_invokes_on_dst_cex :
    (moveAssignAt stc 0 1).2 ≠ [] := by
  decide

/-- C3, amended: after a move construction or a move assignment between
distinct handles, the source's `Get` returns null and the destination's
`Get` returns the source's prior pointer; move construction invokes the
releaser zero times, and move assignment invokes it exactly on the
destination's previously held pointer when that was non-null (zero times
when the destination was empty), never on the transferred pointer. -/
theorem moveAssign_amended {P D : Type} {n : Nat} (st : Fin n → Handle P D)
    (i j : Fin n) (hij : i ≠ j) (h : Handle P D) :
    ((moveAssignAt st i j).1 j).ptr = none ∧
    ((moveAssignAt st i j).1 i).ptr = (st j).ptr ∧
    (moveAssignAt st i j).2 =
      (st i).ptr.toList.map (fun o => Event.mk o ((st j).ptr)) ∧
    (moveCtor h).1.1.ptr = h.ptr ∧
    (moveCtor h).1.2.ptr = none ∧
    (moveCtor h).2 = [] := by
  have hji : j ≠ i := Ne.symm hij
  cases hp : (st i).ptr with
  | none =>
      simp [moveAssignAt, hij, hji, moveAssign, Release, Reset, moveCtor, hp]
  | some o =>
      simp [moveAssignAt, hij, hji, moveAssign, Release, Reset, moveCtor, hp]

/-- Witness for C3's amended theorem on the concrete store `stc` with
destination 0, source 1, and a scratch handle holding pointer 5. -/
theorem moveAssign_amended_witness :
    ((0 : Fin 2) ≠ 1) ∧
    (((moveAssignAt stc 0 1).1 1).ptr = none ∧
      ((moveAssignAt stc 0 1).1 0).ptr = (stc 1).ptr ∧
      (moveAssignAt stc 0 1).2 =
        (stc 0).ptr.toList.map (fun o => Event.mk o ((stc 1).ptr)) ∧
      (moveCtor (⟨some 5, ()⟩ : Handle Nat Unit)).1.1.ptr =
        (⟨some 5, ()⟩ : Handle Nat Unit).ptr ∧
      (moveCtor (⟨some 5, ()⟩ : Handle Nat Unit)).1.2.ptr = none ∧
      (moveCtor (⟨some 5, ()⟩ : Handle Nat Unit)).2 = []) :=
  ⟨by decide, moveAssign_amended stc 0 1 (by decide) ⟨some 5, ()⟩⟩

/-- C5: swapping two distinct handles exchanges both stored fields — the
first ends with the second's prior pointer and releaser, the second with
the first's — the whole `Swap` call produces an empty releaser-invocation
trace, and swapping a handle with itself leaves the store unchanged with an
empty trace. -/
theorem Swap_spec {P D : Type} {n : Nat} (st : Fin n → Handle P D)
    (i j : Fin n) (hij : i ≠ j) :
    (SwapAt st i j).1 i = ⟨(st j).ptr, (st j).d⟩ ∧
    (SwapAt st i j).1 j = ⟨(st i).ptr, (st i).d⟩ ∧
    (SwapAt st i j).2 = [] ∧
    SwapAt st i i = (st, []) := by
  have hji : j ≠ i := Ne.symm hij
  refine ⟨?_, ?_, ?_, ?_⟩
  · simp [SwapAt, moveCtor, moveAssignAt, moveAssign, Release, Reset, dtor,
      hij, hji]
  · simp [SwapAt, moveCtor, moveAssignAt, moveAssign, Release, Reset, dtor,
      hij, hji]
  · simp [SwapAt, moveCtor, moveAssignAt, moveAssign, Release, Reset, dtor,
      hij, hji]
  · refine Prod.ext ?_ ?_
    · funext k
      by_cases hki : k = i <;>
        simp [SwapAt, moveCtor, moveAssignAt, moveAssign, Release, Reset,
          dtor, hki]
    · simp [SwapAt, moveCtor, moveAssignAt, moveAssign, Release, Reset, dtor]

/-- Witness for C5 on the concrete store `stSwap` with handles 0 and 1. -/
theorem Swap_spec_witness :
    ((0 : Fin 2) ≠ 1) ∧
    ((SwapAt stSwap 0 1).1 0 = ⟨(stSwap 1).ptr, (stSwap 1).d⟩ ∧
      (SwapAt stSwap 0 1).1 1 = ⟨(stSwap 0).ptr, (stSwap 0).d⟩ ∧
      (SwapAt stSwap 0 1).2 = [] ∧
      SwapAt stSwap 0 0 = (stSwap, [])) :=
  ⟨by decide, Swap_spec stSwap 0 1 (by decide)⟩

end Rainbow3D
